import Mathlib

/-!
Shallow embedding of the device-state reconciliation core of the
`custom_components/openly` integration (lock and climate state machines,
refresh coordinator), with theorems settling the specification claims.

Blocking cloud calls, cooperative sleeps and state publications are made
observable as an event trace; machine state is passed explicitly.
-/

namespace Openly

/-! ### Constants (`const.py`) -/

def API_MAX_LOGIN_ATTEMPTS : Nat := 3

def API_LOGIN_RETRY_TIME : Nat := 3

def LOCK_UPDATE_DELAY : Nat := 8

def LOCK_MAX_REFRESH_ATTEMPTS : Nat := 3

def CLIMATE_MIN_TEMP_SPREAD : Int := 3

/-- The names `const.py` actually defines at module level. -/
def constExports : List String :=
  ["DOMAIN", "API_MAX_LOGIN_ATTEMPTS", "API_LOGIN_RETRY_TIME",
   "LOCK_UPDATE_DELAY", "LOCK_MAX_REFRESH_ATTEMPTS", "CLIMATE_MIN_TEMP_SPREAD"]

/-- The names `climate.py` imports from `.const` (its `from .const import` list). -/
def climateConstImports : List String :=
  ["CLIMATE_MAX_REFRESH_ATTEMPTS", "CLIMATE_MIN_TEMP_SPREAD",
   "CLIMATE_UPDATE_DELAY", "DOMAIN"]

/-! ### Errors -/

/-- Exception kinds of the external `openly` cloud library, as the spec's
cloud-client contract names them: an authentication-specific error, an
invalid-response error, a generic API error, a missing-parameters error. -/
inductive RentlyErr
  | authError
  | invalidResponse
  | apiError
  | missingParams
deriving DecidableEq, Repr

/-- Exceptions observable from the integration's own operations. -/
inductive PyErr
  | deviceNotFound
  | stateNotSupported
  | typeError
  | attributeError
  | cloud (e : RentlyErr)
deriving DecidableEq, Repr

/-! ### Lock state machine (`lock.py`) -/

inductive LockMode
  | locked
  | unlocked
  | jammed
  | locking
  | unlocking
  | open_
  | unavailable
deriving DecidableEq, Repr

/-- The `openly.devices.Lock` record as the entity uses it. -/
structure LockRecord where
  id : String
  name : String
  battery : Nat
  mode : LockMode
deriving DecidableEq, Repr

/-- Fields of `LockEntity` that the claims observe: `_lock`, `_state`,
`_attr_available`, and the battery extra attribute. -/
structure LockEntityState where
  record : Option LockRecord
  state : LockMode
  available : Bool
  battAttr : Option Nat
deriving DecidableEq, Repr

/-- Observable effects of a lock command: `async_write_ha_state` publications,
cloud calls, and awaited cooperative sleeps (in seconds). -/
inductive LockEvent
  | publish (m : LockMode)
  | updateStatus
  | getDevice
  | sleep (secs : Nat)
deriving DecidableEq, Repr

/-- The cloud client as seen by one lock entity: the outcome of
`update_device_status` and the result of the k-th `get_device(idx)` call. -/
structure LockCloud where
  push : Except RentlyErr Unit
  fetch : Nat → Option LockRecord

structure LockRun where
  result : Except PyErr Unit
  state : LockEntityState
  trace : List LockEvent
deriving Repr

/-- `LockEntity.async_get_lock_status`: fetches the device and returns
`lock.mode == STATE_LOCKED`; a `None` result makes the attribute access fail. -/
def async_get_lock_status (c : LockCloud) (k : Nat) : Except PyErr Bool :=
  match c.fetch k with
  | none => .error .attributeError
  | some r => .ok (r.mode == .locked)

/-- `LockEntity.async_update`: re-fetches the record; on `None` marks the
entity unavailable and leaves the state stale, otherwise stores the record,
battery attribute and the record's mode. -/
def lock_async_update (c : LockCloud) (e : LockEntityState) (k : Nat) :
    LockEntityState × List LockEvent :=
  match c.fetch k with
  | none => ({ e with available := false }, [LockEvent.getDevice])
  | some r =>
      ({ record := some r, state := r.mode, available := true, battAttr := some r.battery },
       [LockEvent.getDevice])

/-- The confirmation loop of `async_lock`/`async_unlock`:
`attempts = 1; while attempts < LOCK_MAX_REFRESH_ATTEMPTS:` sleep
`LOCK_UPDATE_DELAY`, re-fetch the status, and stop once it equals the wanted
polarity, else increment `attempts`.  The loop counter is carried as the
number of iterations still allowed, `remaining = LOCK_MAX_REFRESH_ATTEMPTS -
attempts`; `k` is the next fetch index, returned on exit. -/
def lockConfirmLoop (c : LockCloud) (wantLocked : Bool) :
    Nat → Nat → Except PyErr Nat × List LockEvent
  | 0, k => (.ok k, [])
  | remaining + 1, k =>
    match async_get_lock_status c k with
    | .error e => (.error e, [LockEvent.sleep LOCK_UPDATE_DELAY, LockEvent.getDevice])
    | .ok locked =>
      if locked == wantLocked then
        (.ok (k + 1), [LockEvent.sleep LOCK_UPDATE_DELAY, LockEvent.getDevice])
      else
        let rest := lockConfirmLoop c wantLocked remaining (k + 1)
        (rest.1, LockEvent.sleep LOCK_UPDATE_DELAY :: LockEvent.getDevice :: rest.2)

/-- `LockEntity.async_lock`: raises device-not-found when no record was ever
loaded; otherwise publishes the transient `locking` state, sets the record's
desired status, pushes it, runs the confirmation loop, then performs one final
unconditional refresh.  The record mutation `self._lock.lock()` is from the
external library; modelled from the spec as setting the record's mode to the
command target pushed by `update_device_status`. -/
def async_lock (c : LockCloud) (e : LockEntityState) : LockRun :=
  match e.record with
  | none => { result := .error .deviceNotFound, state := e, trace := [] }
  | some r =>
    let e2 : LockEntityState :=
      { e with state := .locking, record := some { r with mode := LockMode.locked } }
    let pre : List LockEvent := [LockEvent.publish .locking, LockEvent.updateStatus]
    match c.push with
    | .error err => { result := .error (.cloud err), state := e2, trace := pre }
    | .ok _ =>
      let loop := lockConfirmLoop c true (LOCK_MAX_REFRESH_ATTEMPTS - 1) 0
      match loop.1 with
      | .error err => { result := .error err, state := e2, trace := pre ++ loop.2 }
      | .ok k =>
        let fin := lock_async_update c e2 k
        { result := .ok (), state := fin.1, trace := pre ++ loop.2 ++ fin.2 }

/-- `LockEntity.async_unlock`: symmetric to `async_lock` with the transient
`unlocking` state and convergence meaning not-locked. -/
def async_unlock (c : LockCloud) (e : LockEntityState) : LockRun :=
  match e.record with
  | none => { result := .error .deviceNotFound, state := e, trace := [] }
  | some r =>
    let e2 : LockEntityState :=
      { e with state := .unlocking, record := some { r with mode := LockMode.unlocked } }
    let pre : List LockEvent := [LockEvent.publish .unlocking, LockEvent.updateStatus]
    match c.push with
    | .error err => { result := .error (.cloud err), state := e2, trace := pre }
    | .ok _ =>
      let loop := lockConfirmLoop c false (LOCK_MAX_REFRESH_ATTEMPTS - 1) 0
      match loop.1 with
      | .error err => { result := .error err, state := e2, trace := pre ++ loop.2 }
      | .ok k =>
        let fin := lock_async_update c e2 k
        { result := .ok (), state := fin.1, trace := pre ++ loop.2 ++ fin.2 }

/-- Number of `get_device` calls in a trace. -/
def countGet (tr : List LockEvent) : Nat :=
  tr.countP fun ev => ev == LockEvent.getDevice

/-- Number of awaited sleeps in a trace. -/
def countSleep (tr : List LockEvent) : Nat :=
  tr.countP fun ev => match ev with | LockEvent.sleep _ => true | _ => false

/-! ### Climate state machine (`climate.py`) -/

inductive HVACMode
  | off
  | heat
  | cool
  | auto
deriving DecidableEq, Repr

inductive FanMode
  | fanOn
  | fanAuto
deriving DecidableEq, Repr

/-- The `openly.devices.Thermostat` record as the entity uses it. -/
structure Thermostat where
  id : String
  name : String
  battery : Nat
  mode : HVACMode
  fan : FanMode
  room_temp : ℚ
  heating_setpoint : ℚ
  cooling_setpoint : ℚ
  modes : List HVACMode
  fan_modes : List FanMode
deriving DecidableEq, Repr

/-- Fields of `ClimateEntity` that the claims observe: `_climate` and `_state`. -/
structure ClimateEntityState where
  record : Option Thermostat
  state : Option HVACMode
deriving DecidableEq, Repr

/-- Observable effects of a climate command. `updateStatus` and `publish`
carry the record the call transmits respectively publishes. -/
inductive ClimEvent
  | publish (r : Option Thermostat)
  | updateStatus (r : Option Thermostat)
  | getDevice
  | sleep (secs : Nat)
deriving DecidableEq, Repr

/-- The cloud client as seen by one climate entity: only the
`update_device_status` outcome is ever awaited by the commands. -/
structure ClimCloud where
  push : Except RentlyErr Unit

structure ClimRun where
  result : Except PyErr Unit
  state : ClimateEntityState
  trace : List ClimEvent
deriving Repr

/-- `ClimateEntity.async_save_state`.  The loop bound
`CLIMATE_MAX_REFRESH_ATTEMPTS` and delay `CLIMATE_UPDATE_DELAY` are imported
by `climate.py` but not among `constExports`; the embedding takes them as
parameters `A` and `D`.  The loop body binds `new_state` to the coroutine
`self.async_get_status()` without awaiting it, so no fetch is issued and the
first attribute access `new_state.mode` fails with `AttributeError`; with
`A ≤ 1` the loop body never runs. -/
def async_save_state (A D : Nat) (c : ClimCloud) (e : ClimateEntityState) : ClimRun :=
  match c.push with
  | .error err =>
      { result := .error (.cloud err), state := e, trace := [ClimEvent.updateStatus e.record] }
  | .ok _ =>
      let tr := [ClimEvent.updateStatus e.record, ClimEvent.publish e.record]
      if 1 < A then
        { result := .error .attributeError, state := e, trace := tr ++ [ClimEvent.sleep D] }
      else
        { result := .ok (), state := e, trace := tr }

/-- `ClimateEntity.async_set_hvac_mode`: device-not-found when no record is
loaded, unsupported-state when the mode is not in the record's `modes` list,
otherwise mutates the record's mode and saves. -/
def async_set_hvac_mode (A D : Nat) (c : ClimCloud) (e : ClimateEntityState)
    (m : HVACMode) : ClimRun :=
  match e.record with
  | none => { result := .error .deviceNotFound, state := e, trace := [] }
  | some r =>
    if m ∈ r.modes then
      async_save_state A D c { e with record := some { r with mode := m } }
    else
      { result := .error .stateNotSupported, state := e, trace := [] }

/-- `ClimateEntity.async_set_fan_mode`: same preconditions against the
record's `fan_modes` list. -/
def async_set_fan_mode (A D : Nat) (c : ClimCloud) (e : ClimateEntityState)
    (f : FanMode) : ClimRun :=
  match e.record with
  | none => { result := .error .deviceNotFound, state := e, trace := [] }
  | some r =>
    if f ∈ r.fan_modes then
      async_save_state A D c { e with record := some { r with fan := f } }
    else
      { result := .error .stateNotSupported, state := e, trace := [] }

/-- Python `int(q)`: truncation toward zero. -/
def pyInt (q : ℚ) : Int :=
  q.num.tdiv (q.den : Int)

/-- `ClimateEntity.async_set_temperature_range`: writes both setpoints on the
local record, then saves. -/
def async_set_temperature_range (A D : Nat) (c : ClimCloud) (e : ClimateEntityState)
    (lo hi : Int) : ClimRun :=
  match e.record with
  | none => { result := .error .attributeError, state := e, trace := [] }
  | some r =>
    async_save_state A D c
      { e with record := some { r with heating_setpoint := (lo : ℚ), cooling_setpoint := (hi : ℚ) } }

/-- `ClimateEntity.async_set_temperature`: coerces both keyword temperatures
with `int(float(...))` unconditionally — `kwargs.get` yields `None` for an
absent bound and `float(None)` raises `TypeError` — then branches on the
current `hvac_mode` property (which is `None` when no record is loaded),
guarding the cool/heat branches by truthiness of the coerced value. -/
def async_set_temperature (A D : Nat) (c : ClimCloud) (e : ClimateEntityState)
    (low high : Option ℚ) : ClimRun :=
  match low with
  | none => { result := .error .typeError, state := e, trace := [] }
  | some lo =>
    match high with
    | none => { result := .error .typeError, state := e, trace := [] }
    | some hi =>
      let tlo := pyInt lo
      let thi := pyInt hi
      let m : Option HVACMode := e.record.map fun r => r.mode
      if m = some HVACMode.cool ∧ thi ≠ 0 then
        async_set_temperature_range A D c e (thi - CLIMATE_MIN_TEMP_SPREAD) thi
      else if m = some HVACMode.heat ∧ tlo ≠ 0 then
        async_set_temperature_range A D c e tlo (tlo + CLIMATE_MIN_TEMP_SPREAD)
      else if m = some HVACMode.auto then
        async_set_temperature_range A D c e tlo thi
      else
        { result := .ok (), state := e, trace := [] }

/-! ### Refresh coordinator (`coordinator.py`, `__init__.py`) -/

structure LoginRun where
  result : Except RentlyErr Unit
  calls : Nat
  sleptSeconds : Nat
deriving Repr

/-- The retry loop inside `CloudCoordinator.async_login`.  `login k` is the
outcome of the k-th `cloud.login` call (`ok b` for a boolean return, `error`
for a raised library exception); a falsy return raises the library's
authentication error inside the `try`.  `isAPI` tells which library errors
the `except RentlyAPIError` clause catches (the class hierarchy lives in the
external library).  In the handler, when `attempts > API_MAX_LOGIN_ATTEMPTS`
an invalid-response error is raised; otherwise `asyncio.sleep` is called
WITHOUT `await` — a coroutine is created but no delay occurs, so
`sleptSeconds` never grows and the surrounding 9-second
`asyncio.timeout` never fires. -/
def loginLoop (isAPI : RentlyErr → Bool) (login : Nat → Except RentlyErr Bool) :
    Nat → Nat → LoginRun
  | remaining, k =>
    match login k with
    | .ok true => { result := .ok (), calls := k + 1, sleptSeconds := 0 }
    | .ok false =>
      if isAPI RentlyErr.authError then
        match remaining with
        | 0 => { result := .error .invalidResponse, calls := k + 1, sleptSeconds := 0 }
        | n + 1 => loginLoop isAPI login n (k + 1)
      else
        { result := .error .authError, calls := k + 1, sleptSeconds := 0 }
    | .error e =>
      if isAPI e then
        match remaining with
        | 0 => { result := .error .invalidResponse, calls := k + 1, sleptSeconds := 0 }
        | n + 1 => loginLoop isAPI login n (k + 1)
      else
        { result := .error e, calls := k + 1, sleptSeconds := 0 }

/-- `CloudCoordinator.async_login` for a session that starts disconnected:
`attempts = 1`, i.e. `remaining = API_MAX_LOGIN_ATTEMPTS + 1 - attempts =
API_MAX_LOGIN_ATTEMPTS` handler passes left before the
`attempts > API_MAX_LOGIN_ATTEMPTS` branch raises; the call counter at 0. -/
def async_login (isAPI : RentlyErr → Bool) (login : Nat → Except RentlyErr Bool) :
    LoginRun :=
  loginLoop isAPI login API_MAX_LOGIN_ATTEMPTS 0

/-- Outcome of `CloudCoordinator._async_update_data` as the host sees it. -/
inductive UpdateOutcome
  | ok (hubs : List String)
  | configEntryAuthFailed
  | updateFailed
  | unhandled (e : RentlyErr)
deriving DecidableEq, Repr

/-- `CloudCoordinator._async_update_data`: returns `cloud.get_hubs()`;
`except RentlyAuthError` re-raises `ConfigEntryAuthFailed`,
`except InvalidResponseError` re-raises `UpdateFailed`; any other library
error matches neither clause and propagates unwrapped. -/
def update_data (getHubs : Except RentlyErr (List String)) : UpdateOutcome :=
  match getHubs with
  | .ok hs => .ok hs
  | .error .authError => .configEntryAuthFailed
  | .error .invalidResponse => .updateFailed
  | .error e => .unhandled e

/-- A device as `async_setup_entry` classifies it: `isLock` is
`isinstance(device, Lock)`. -/
structure PyDevice where
  devId : String
  isLock : Bool
deriving DecidableEq, Repr

/-- One cloud inventory: the hub id list returned by `get_hubs` and the
device list `get_devices(hub_id)` per hub. -/
structure Inventory where
  hubs : List String
  devices : String → List PyDevice

/-- The coordinator's entity collections (`self.hubs`, `self.locks`,
`self.climates`), as the entity id each is bound to. -/
structure Collections where
  hubs : List String
  locks : List String
  climates : List String
deriving DecidableEq, Repr

/-- The entity-building phase of `async_setup_entry` (`__init__.py`):
enumerates hubs, collects each hub's devices, keeps only those with
`isinstance(device, Lock)`, then assigns `coordinator.hubs` and
`coordinator.locks` in two consecutive statements with no suspension point
between them; `coordinator.climates` is never assigned. -/
def setupCollections (inv : Inventory) (coord : Collections) : Collections :=
  let lockDevices := (inv.hubs.map fun h => (inv.devices h).filter fun d => d.isLock).flatten
  { hubs := inv.hubs, locks := lockDevices.map fun d => d.devId,
    climates := coord.climates }

/-- The coordinator's state as a consumer sees it: the cached hub data from
the last `_async_update_data` and the entity collections. -/
structure CoordState where
  data : Option (List String)
  colls : Collections
deriving DecidableEq, Repr

/-- One successful periodic refresh: `_async_update_data` returns the hub
list, which the base coordinator stores as `self.data`; the entity
collections are not touched anywhere on this path. -/
def refreshSuccess (coord : CoordState) (hubs : List String) : CoordState :=
  { coord with data := some hubs }


/-! ### Concrete fixtures used by witnesses and counterexamples -/

def demoLockRecord : LockRecord :=
  { id := "lock-1", name := "Front Door", battery := 80, mode := LockMode.unlocked }

def demoLockedRecord : LockRecord :=
  { demoLockRecord with mode := LockMode.locked }

def demoLockEnt : LockEntityState :=
  { record := some demoLockRecord, state := LockMode.unlocked,
    available := true, battAttr := some 80 }

def noRecLockEnt : LockEntityState :=
  { record := none, state := LockMode.unavailable, available := false, battAttr := none }

/-- A cloud whose lock never leaves `unlocked`: a lock command never converges. -/
def stayUnlockedCloud : LockCloud :=
  { push := Except.ok (), fetch := fun _ => some demoLockRecord }

/-- A cloud whose lock never leaves `locked`: an unlock command never converges. -/
def stayLockedCloud : LockCloud :=
  { push := Except.ok (), fetch := fun _ => some demoLockedRecord }

/-- A cloud whose `update_device_status` raises the generic API error. -/
def pushFailCloud : LockCloud :=
  { push := Except.error RentlyErr.apiError, fetch := fun _ => some demoLockRecord }

def demoThermostat : Thermostat :=
  { id := "th-1", name := "Hallway", battery := 40, mode := HVACMode.cool,
    fan := FanMode.fanAuto, room_temp := 70, heating_setpoint := 65,
    cooling_setpoint := 75, modes := [HVACMode.off, HVACMode.cool],
    fan_modes := [FanMode.fanAuto] }

def heatThermostat : Thermostat :=
  { demoThermostat with
    mode := HVACMode.heat
    modes := [HVACMode.off, HVACMode.heat] }

def demoClimEnt : ClimateEntityState :=
  { record := some demoThermostat, state := some HVACMode.cool }

def heatClimEnt : ClimateEntityState :=
  { record := some heatThermostat, state := some HVACMode.heat }

def noRecClimEnt : ClimateEntityState :=
  { record := none, state := none }

def okClimCloud : ClimCloud :=
  { push := Except.ok () }

def demoInventory : Inventory :=
  { hubs := ["hub-1"],
    devices := fun h =>
      if h = "hub-1" then
        [{ devId := "lock-1", isLock := true }, { devId := "th-1", isLock := false }]
      else [] }

def emptyColls : Collections :=
  { hubs := [], locks := [], climates := [] }


/-! ### Claims -/

/-- C1 (counterexample): the claim fails for `set_temperature`.  With no
record ever loaded and both temperature bounds supplied, the embedded
`ClimateEntity.async_set_temperature` completes silently instead of failing
with device-not-found — every `hvac_mode` comparison is false for `None` —
though it does issue zero cloud calls. -/
theorem c1_counterexample :
    (async_set_temperature 3 8 okClimCloud noRecClimEnt (some 70) (some 75)).result
        = Except.ok () ∧
    (async_set_temperature 3 8 okClimCloud noRecClimEnt (some 70) (some 75)).trace = [] :=
  ⟨rfl, rfl⟩

/-- C1 (amended): against a device whose record was never successfully
fetched, `lock`, `unlock`, `set_hvac_mode` and `set_fan_mode` fail with
device-not-found and issue zero cloud calls; `set_temperature` also issues
zero cloud calls but does not fail: with both bounds supplied it returns
silently without raising device-not-found. -/
theorem c1_amended (c : LockCloud) (cc : ClimCloud) (A D : Nat)
    (le : LockEntityState) (ce : ClimateEntityState)
    (m : HVACMode) (f : FanMode) (lo hi : ℚ)
    (hle : le.record = none) (hce : ce.record = none) :
    (async_lock c le).result = Except.error PyErr.deviceNotFound ∧
    (async_lock c le).trace = [] ∧
    (async_unlock c le).result = Except.error PyErr.deviceNotFound ∧
    (async_unlock c le).trace = [] ∧
    (async_set_hvac_mode A D cc ce m).result = Except.error PyErr.deviceNotFound ∧
    (async_set_hvac_mode A D cc ce m).trace = [] ∧
    (async_set_fan_mode A D cc ce f).result = Except.error PyErr.deviceNotFound ∧
    (async_set_fan_mode A D cc ce f).trace = [] ∧
    (async_set_temperature A D cc ce (some lo) (some hi)).result = Except.ok () ∧
    (async_set_temperature A D cc ce (some lo) (some hi)).trace = [] := by
  simp [async_lock, async_unlock, async_set_hvac_mode, async_set_fan_mode,
        async_set_temperature, hle, hce]

/-- C1 (witness): the amended statement at the concrete no-record entities. -/
theorem c1_amended_witness :
    (async_lock stayUnlockedCloud noRecLockEnt).result = Except.error PyErr.deviceNotFound ∧
    (async_lock stayUnlockedCloud noRecLockEnt).trace = [] ∧
    (async_unlock stayUnlockedCloud noRecLockEnt).result = Except.error PyErr.deviceNotFound ∧
    (async_unlock stayUnlockedCloud noRecLockEnt).trace = [] ∧
    (async_set_hvac_mode 3 8 okClimCloud noRecClimEnt HVACMode.heat).result
        = Except.error PyErr.deviceNotFound ∧
    (async_set_hvac_mode 3 8 okClimCloud noRecClimEnt HVACMode.heat).trace = [] ∧
    (async_set_fan_mode 3 8 okClimCloud noRecClimEnt FanMode.fanOn).result
        = Except.error PyErr.deviceNotFound ∧
    (async_set_fan_mode 3 8 okClimCloud noRecClimEnt FanMode.fanOn).trace = [] ∧
    (async_set_temperature 3 8 okClimCloud noRecClimEnt (some 68) (some 74)).result
        = Except.ok () ∧
    (async_set_temperature 3 8 okClimCloud noRecClimEnt (some 68) (some 74)).trace = [] :=
  c1_amended stayUnlockedCloud okClimCloud 3 8 noRecLockEnt noRecClimEnt
    HVACMode.heat FanMode.fanOn 68 74 rfl rfl

/-- C6 (counterexample): a generic API error from `get_hubs` matches neither
`except` clause of `_async_update_data`: it propagates unwrapped, so it is
surfaced neither as the recoverable update failure the claim demands nor as
an authentication failure. -/
theorem c6_counterexample :
    update_data (Except.error RentlyErr.apiError)
        = UpdateOutcome.unhandled RentlyErr.apiError ∧
    update_data (Except.error RentlyErr.apiError) ≠ UpdateOutcome.updateFailed ∧
    update_data (Except.error RentlyErr.apiError) ≠ UpdateOutcome.configEntryAuthFailed :=
  ⟨rfl, by decide, by decide⟩

/-- C6 (amended): during a refresh, an authentication error is surfaced as
the authentication failure that cancels future scheduled updates, and an
invalid-response error as a recoverable update failure; the two are never
conflated (each outcome arises from exactly its own error).  A generic API
error or missing-parameters error, however, propagates unhandled rather than
being surfaced as an update failure. -/
theorem c6_amended :
    (∀ hs : List String, update_data (Except.ok hs) = UpdateOutcome.ok hs) ∧
    update_data (Except.error RentlyErr.authError) = UpdateOutcome.configEntryAuthFailed ∧
    update_data (Except.error RentlyErr.invalidResponse) = UpdateOutcome.updateFailed ∧
    update_data (Except.error RentlyErr.apiError)
        = UpdateOutcome.unhandled RentlyErr.apiError ∧
    update_data (Except.error RentlyErr.missingParams)
        = UpdateOutcome.unhandled RentlyErr.missingParams ∧
    (∀ x, update_data x = UpdateOutcome.configEntryAuthFailed ↔
        x = Except.error RentlyErr.authError) ∧
    (∀ x, update_data x = UpdateOutcome.updateFailed ↔
        x = Except.error RentlyErr.invalidResponse) := by
  refine ⟨fun hs => rfl, rfl, rfl, rfl, rfl, fun x => ?_, fun x => ?_⟩ <;>
    rcases x with e | hs <;> (try cases e) <;> simp [update_data]

/-- C7: with a loaded record, requesting an HVAC mode outside the record's
advertised `modes` (or a fan mode outside `fan_modes`) fails with
unsupported-state, issues zero cloud calls, and leaves the entity state —
including the local record — unchanged. -/
theorem c7_unsupported_state (A D : Nat) (cc : ClimCloud) (ce : ClimateEntityState)
    (r : Thermostat) (m : HVACMode) (f : FanMode)
    (hce : ce.record = some r) (hm : m ∉ r.modes) (hf : f ∉ r.fan_modes) :
    (async_set_hvac_mode A D cc ce m).result = Except.error PyErr.stateNotSupported ∧
    (async_set_hvac_mode A D cc ce m).trace = [] ∧
    (async_set_hvac_mode A D cc ce m).state = ce ∧
    (async_set_fan_mode A D cc ce f).result = Except.error PyErr.stateNotSupported ∧
    (async_set_fan_mode A D cc ce f).trace = [] ∧
    (async_set_fan_mode A D cc ce f).state = ce := by
  simp [async_set_hvac_mode, async_set_fan_mode, hce, hm, hf]

/-- C7 (witness): the cool-only thermostat rejects `heat` and the auto-only
fan rejects `on`. -/
theorem c7_unsupported_state_witness :
    (async_set_hvac_mode 3 8 okClimCloud demoClimEnt HVACMode.heat).result
        = Except.error PyErr.stateNotSupported ∧
    (async_set_hvac_mode 3 8 okClimCloud demoClimEnt HVACMode.heat).trace = [] ∧
    (async_set_hvac_mode 3 8 okClimCloud demoClimEnt HVACMode.heat).state = demoClimEnt ∧
    (async_set_fan_mode 3 8 okClimCloud demoClimEnt FanMode.fanOn).result
        = Except.error PyErr.stateNotSupported ∧
    (async_set_fan_mode 3 8 okClimCloud demoClimEnt FanMode.fanOn).trace = [] ∧
    (async_set_fan_mode 3 8 okClimCloud demoClimEnt FanMode.fanOn).state = demoClimEnt :=
  c7_unsupported_state 3 8 okClimCloud demoClimEnt demoThermostat
    HVACMode.heat FanMode.fanOn rfl (by decide) (by decide)


/-- C8: for every lock or unlock command on a lock with a loaded record, the
first observable effect is the publication of the transient state
(`locking` for lock, `unlocking` for unlock), and it strictly precedes the
remote `update_device_status` call — hence is visible regardless of remote
latency and of every later outcome. -/
theorem c8_transient_state_published (c : LockCloud) (e : LockEntityState)
    (r : LockRecord) (he : e.record = some r) :
    (async_lock c e).trace.take 2
        = [LockEvent.publish LockMode.locking, LockEvent.updateStatus] ∧
    (async_unlock c e).trace.take 2
        = [LockEvent.publish LockMode.unlocking, LockEvent.updateStatus] := by
  refine ⟨?_, ?_⟩ <;>
    rcases hp : c.push with err | u <;>
      simp only [async_lock, async_unlock, he, hp] <;>
      (try split) <;> rfl

/-- C8 (witness): the transient publications on the concrete never-converging
cloud and loaded demo lock. -/
theorem c8_transient_state_published_witness :
    (async_lock stayUnlockedCloud demoLockEnt).trace.take 2
        = [LockEvent.publish LockMode.locking, LockEvent.updateStatus] ∧
    (async_unlock stayUnlockedCloud demoLockEnt).trace.take 2
        = [LockEvent.publish LockMode.unlocking, LockEvent.updateStatus] :=
  c8_transient_state_published stayUnlockedCloud demoLockEnt demoLockRecord rfl

/-- C10: when the cloud push (`update_device_status`) raises, the exception
propagates out of `async_lock`/`async_unlock` and the entity keeps the
optimistically published transient state — the trace ends at the failed push
with no further publication, so no rollback to the pre-command value occurs. -/
theorem c10_no_rollback_on_push_error (fetch : Nat → Option LockRecord)
    (e : LockEntityState) (r : LockRecord) (err : RentlyErr)
    (he : e.record = some r) :
    (async_lock { push := Except.error err, fetch := fetch } e).result
        = Except.error (PyErr.cloud err) ∧
    (async_lock { push := Except.error err, fetch := fetch } e).state.state
        = LockMode.locking ∧
    (async_lock { push := Except.error err, fetch := fetch } e).trace
        = [LockEvent.publish LockMode.locking, LockEvent.updateStatus] ∧
    (async_unlock { push := Except.error err, fetch := fetch } e).result
        = Except.error (PyErr.cloud err) ∧
    (async_unlock { push := Except.error err, fetch := fetch } e).state.state
        = LockMode.unlocking ∧
    (async_unlock { push := Except.error err, fetch := fetch } e).trace
        = [LockEvent.publish LockMode.unlocking, LockEvent.updateStatus] := by
  simp [async_lock, async_unlock, he]

/-- C10 (witness): the push-failure run on the demo lock with a generic API
error from the cloud client. -/
theorem c10_no_rollback_witness :
    (async_lock pushFailCloud demoLockEnt).result
        = Except.error (PyErr.cloud RentlyErr.apiError) ∧
    (async_lock pushFailCloud demoLockEnt).state.state = LockMode.locking ∧
    (async_lock pushFailCloud demoLockEnt).trace
        = [LockEvent.publish LockMode.locking, LockEvent.updateStatus] ∧
    (async_unlock pushFailCloud demoLockEnt).result
        = Except.error (PyErr.cloud RentlyErr.apiError) ∧
    (async_unlock pushFailCloud demoLockEnt).state.state = LockMode.unlocking ∧
    (async_unlock pushFailCloud demoLockEnt).trace
        = [LockEvent.publish LockMode.unlocking, LockEvent.updateStatus] :=
  c10_no_rollback_on_push_error (fun _ => some demoLockRecord) demoLockEnt
    demoLockRecord RentlyErr.apiError rfl

/-- C3: evaluation of `async_login` when the session never connects and every
`cloud.login` call raises the generic API error.  Contrary to the claim, the
code performs 4 login calls (the handler raises only once
`attempts > API_MAX_LOGIN_ATTEMPTS`), the inter-attempt `asyncio.sleep` is
never awaited so zero seconds elapse between attempts (and the 9-second
`asyncio.timeout` window, whose budget is the stated 3 × 3 product, never
fires), and exhaustion raises the invalid-response (transient) error rather
than an authentication failure. -/
theorem c3_login_retry_eval :
    (async_login (fun e => e == RentlyErr.apiError)
        (fun _ => Except.error RentlyErr.apiError)).result
        = Except.error RentlyErr.invalidResponse ∧
    (async_login (fun e => e == RentlyErr.apiError)
        (fun _ => Except.error RentlyErr.apiError)).calls = 4 ∧
    (async_login (fun e => e == RentlyErr.apiError)
        (fun _ => Except.error RentlyErr.apiError)).calls ≠ API_MAX_LOGIN_ATTEMPTS ∧
    (async_login (fun e => e == RentlyErr.apiError)
        (fun _ => Except.error RentlyErr.apiError)).sleptSeconds = 0 ∧
    API_LOGIN_RETRY_TIME * API_MAX_LOGIN_ATTEMPTS = 9 :=
  ⟨rfl, rfl, by decide, rfl, rfl⟩

/-- C4: evaluation of `async_set_temperature` at the claim inputs.  With only
a high bound in cool mode — or only a low bound in heat mode — the
unconditional `int(float(kwargs.get(...)))` coercion hits `float(None)` and
raises `TypeError` before any setpoint is computed or transmitted; the
`high - 3` / `low + 3` spread arithmetic of the claim is only reached when
both bounds are supplied, as the transmitted record then shows. -/
theorem c4_set_temperature_eval :
    (async_set_temperature 3 8 okClimCloud demoClimEnt none (some 75)).result
        = Except.error PyErr.typeError ∧
    (async_set_temperature 3 8 okClimCloud demoClimEnt none (some 75)).trace = [] ∧
    (async_set_temperature 3 8 okClimCloud heatClimEnt (some 68) none).result
        = Except.error PyErr.typeError ∧
    (async_set_temperature 3 8 okClimCloud heatClimEnt (some 68) none).trace = [] ∧
    (async_set_temperature 3 8 okClimCloud demoClimEnt (some 68) (some 75)).trace.head?
        = some (ClimEvent.updateStatus (some { demoThermostat with
            heating_setpoint := 72
            cooling_setpoint := 75 })) ∧
    (async_set_temperature 3 8 okClimCloud heatClimEnt (some 68) (some 75)).trace.head?
        = some (ClimEvent.updateStatus (some { heatThermostat with
            heating_setpoint := 68
            cooling_setpoint := 71 })) :=
  ⟨rfl, rfl, rfl, rfl, rfl, rfl⟩

/-- C5: `async_save_state` pushes the mutated record and publishes the
optimistic local state, but the confirmation loop then fails outright: its
bound (`CLIMATE_MAX_REFRESH_ATTEMPTS`) and delay (`CLIMATE_UPDATE_DELAY`) are
imported yet absent from `const.py`, the status fetch is never awaited so the
first comparison raises `AttributeError` after a single sleep with zero
`get_device` calls, and no final fetch or publication of the remote state
ever happens — the last published state is the optimistic one. -/
theorem c5_save_state_eval (A D : Nat) (cc : ClimCloud) (ce : ClimateEntityState)
    (hA : 2 ≤ A) (hp : cc.push = Except.ok ()) :
    (async_save_state A D cc ce).result = Except.error PyErr.attributeError ∧
    (async_save_state A D cc ce).trace
        = [ClimEvent.updateStatus ce.record, ClimEvent.publish ce.record,
           ClimEvent.sleep D] ∧
    (async_save_state A D cc ce).state = ce ∧
    "CLIMATE_MAX_REFRESH_ATTEMPTS" ∈ climateConstImports ∧
    "CLIMATE_MAX_REFRESH_ATTEMPTS" ∉ constExports ∧
    "CLIMATE_UPDATE_DELAY" ∈ climateConstImports ∧
    "CLIMATE_UPDATE_DELAY" ∉ constExports := by
  have h1 : 1 < A := hA
  refine ⟨?_, ?_, ?_, by decide, by decide, by decide, by decide⟩ <;>
    simp [async_save_state, hp, h1]

/-- C5 (witness): the save evaluation at the concrete cool-mode entity with a
loop bound of 3 and a delay of 8. -/
theorem c5_save_state_eval_witness :
    (async_save_state 3 8 okClimCloud demoClimEnt).result
        = Except.error PyErr.attributeError ∧
    (async_save_state 3 8 okClimCloud demoClimEnt).trace
        = [ClimEvent.updateStatus demoClimEnt.record,
           ClimEvent.publish demoClimEnt.record, ClimEvent.sleep 8] ∧
    (async_save_state 3 8 okClimCloud demoClimEnt).state = demoClimEnt ∧
    "CLIMATE_MAX_REFRESH_ATTEMPTS" ∈ climateConstImports ∧
    "CLIMATE_MAX_REFRESH_ATTEMPTS" ∉ constExports ∧
    "CLIMATE_UPDATE_DELAY" ∈ climateConstImports ∧
    "CLIMATE_UPDATE_DELAY" ∉ constExports :=
  c5_save_state_eval 3 8 okClimCloud demoClimEnt (by decide) rfl


/-- C2 (counterexample): on the concrete never-converging cloud, a lock
command performs exactly 2 confirmation fetches — not the 3 the claim states
(each confirmation fetch is preceded by one sleep, and the trace holds 2
sleeps) — followed by the one unconditional final refresh (3 `get_device`
calls in total, where the claim demands 3 + 1 = 4). -/
theorem c2_counterexample :
    (async_lock stayUnlockedCloud demoLockEnt).trace
        = [LockEvent.publish LockMode.locking, LockEvent.updateStatus,
           LockEvent.sleep 8, LockEvent.getDevice,
           LockEvent.sleep 8, LockEvent.getDevice, LockEvent.getDevice] ∧
    countSleep (async_lock stayUnlockedCloud demoLockEnt).trace = 2 ∧
    countGet (async_lock stayUnlockedCloud demoLockEnt).trace = 3 ∧
    countSleep (async_lock stayUnlockedCloud demoLockEnt).trace ≠ 3 :=
  ⟨rfl, rfl, rfl, by decide⟩

/-- C2 (amended): for a lock (resp. unlock) command whose remote state never
converges to the intended mode, exactly `LOCK_MAX_REFRESH_ATTEMPTS - 1 = 2`
confirmation fetches occur, each preceded by one fixed 8-second sleep,
followed by one unconditional final refresh, and the state published after
the command is exactly what that final refresh returned. -/
theorem c2_amended (fA fB : Nat → Option LockRecord) (e : LockEntityState)
    (r r0 r1 r2 s0 s1 s2 : LockRecord)
    (he : e.record = some r)
    (hA0 : fA 0 = some r0) (hA1 : fA 1 = some r1) (hA2 : fA 2 = some r2)
    (hm0 : r0.mode ≠ LockMode.locked) (hm1 : r1.mode ≠ LockMode.locked)
    (hB0 : fB 0 = some s0) (hB1 : fB 1 = some s1) (hB2 : fB 2 = some s2)
    (hn0 : s0.mode = LockMode.locked) (hn1 : s1.mode = LockMode.locked) :
    (async_lock { push := Except.ok (), fetch := fA } e).trace
        = [LockEvent.publish LockMode.locking, LockEvent.updateStatus,
           LockEvent.sleep LOCK_UPDATE_DELAY, LockEvent.getDevice,
           LockEvent.sleep LOCK_UPDATE_DELAY, LockEvent.getDevice,
           LockEvent.getDevice] ∧
    (async_lock { push := Except.ok (), fetch := fA } e).result = Except.ok () ∧
    (async_lock { push := Except.ok (), fetch := fA } e).state.state = r2.mode ∧
    (async_lock { push := Except.ok (), fetch := fA } e).state.record = some r2 ∧
    (async_unlock { push := Except.ok (), fetch := fB } e).trace
        = [LockEvent.publish LockMode.unlocking, LockEvent.updateStatus,
           LockEvent.sleep LOCK_UPDATE_DELAY, LockEvent.getDevice,
           LockEvent.sleep LOCK_UPDATE_DELAY, LockEvent.getDevice,
           LockEvent.getDevice] ∧
    (async_unlock { push := Except.ok (), fetch := fB } e).result = Except.ok () ∧
    (async_unlock { push := Except.ok (), fetch := fB } e).state.state = s2.mode ∧
    (async_unlock { push := Except.ok (), fetch := fB } e).state.record = some s2 := by
  have hb0 : (r0.mode == LockMode.locked) = false := by simp [hm0]
  have hb1 : (r1.mode == LockMode.locked) = false := by simp [hm1]
  have hc0 : (s0.mode == LockMode.locked) = true := by simp [hn0]
  have hc1 : (s1.mode == LockMode.locked) = true := by simp [hn1]
  simp [async_lock, async_unlock, he, lockConfirmLoop, async_get_lock_status,
        lock_async_update, hA0, hA1, hA2, hB0, hB1, hB2, hb0, hb1, hc0, hc1,
        LOCK_MAX_REFRESH_ATTEMPTS]

/-- C2 (witness): the amended statement on the concrete clouds that stay
`unlocked` (for lock) and `locked` (for unlock). -/
theorem c2_amended_witness :
    (async_lock stayUnlockedCloud demoLockEnt).trace
        = [LockEvent.publish LockMode.locking, LockEvent.updateStatus,
           LockEvent.sleep LOCK_UPDATE_DELAY, LockEvent.getDevice,
           LockEvent.sleep LOCK_UPDATE_DELAY, LockEvent.getDevice,
           LockEvent.getDevice] ∧
    (async_lock stayUnlockedCloud demoLockEnt).result = Except.ok () ∧
    (async_lock stayUnlockedCloud demoLockEnt).state.state = demoLockRecord.mode ∧
    (async_lock stayUnlockedCloud demoLockEnt).state.record = some demoLockRecord ∧
    (async_unlock stayLockedCloud demoLockEnt).trace
        = [LockEvent.publish LockMode.unlocking, LockEvent.updateStatus,
           LockEvent.sleep LOCK_UPDATE_DELAY, LockEvent.getDevice,
           LockEvent.sleep LOCK_UPDATE_DELAY, LockEvent.getDevice,
           LockEvent.getDevice] ∧
    (async_unlock stayLockedCloud demoLockEnt).result = Except.ok () ∧
    (async_unlock stayLockedCloud demoLockEnt).state.state = demoLockedRecord.mode ∧
    (async_unlock stayLockedCloud demoLockEnt).state.record = some demoLockedRecord :=
  c2_amended (fun _ => some demoLockRecord) (fun _ => some demoLockedRecord)
    demoLockEnt demoLockRecord demoLockRecord demoLockRecord demoLockRecord
    demoLockedRecord demoLockedRecord demoLockedRecord
    rfl rfl rfl rfl (by decide) (by decide) rfl rfl rfl rfl rfl

/-- The coordinator state right after setup on the demo inventory. -/
def demoCoordAfterSetup : CoordState :=
  { data := some ["hub-1"], colls := setupCollections demoInventory emptyColls }

/-- C9 (counterexample): on an inventory holding one hub with one lock and
one thermostat, setup classifies only the lock — the climate collection
stays empty despite the thermostat — and a later successful refresh (here
returning a different hub list) leaves every entity collection exactly as
setup built it instead of rebuilding the snapshot. -/
theorem c9_counterexample :
    (setupCollections demoInventory emptyColls).climates = [] ∧
    (setupCollections demoInventory emptyColls).locks = ["lock-1"] ∧
    (setupCollections demoInventory emptyColls).hubs = ["hub-1"] ∧
    (refreshSuccess demoCoordAfterSetup ["hub-2"]).colls
        = setupCollections demoInventory emptyColls :=
  ⟨rfl, rfl, rfl, rfl⟩

/-- C9 (amended): the entity collections are built once, in the setup phase:
it enumerates the hubs, then each hub's devices, and binds a lock entity to
each device satisfying the lock `isinstance` test (exactly the device ids of
lock-classified devices appear); the climate collection is never populated,
and a successful periodic refresh replaces only the cached hub data, leaving
all entity collections untouched. -/
theorem c9_amended (inv : Inventory) (c0 : Collections) (coord : CoordState)
    (hubs : List String) (i : String) :
    (setupCollections inv c0).hubs = inv.hubs ∧
    (setupCollections inv c0).climates = c0.climates ∧
    ((i ∈ (setupCollections inv c0).locks) ↔
      ∃ h ∈ inv.hubs, ∃ d ∈ inv.devices h, d.isLock ∧ d.devId = i) ∧
    (refreshSuccess coord hubs).colls = coord.colls ∧
    (refreshSuccess coord hubs).data = some hubs := by
  refine ⟨rfl, rfl, ?_, rfl, rfl⟩
  simp only [setupCollections, List.mem_map, List.mem_flatten, List.mem_filter]
  aesop

end Openly
